import Mathlib

/-!
# nyc-taxi-analytics: the dashboard front end

A shallow embedding of `frontend/src/api.js` (`withCabType`, `fetchDashboardAll`)
and of `frontend/src/pages/Dashboard.jsx` (the React state of `Dashboard`, its
`loadData` / `useEffect` cycle, the click handlers and the render projection).

Conventions of the embedding.

* A JavaScript value that may be `undefined` or `null` is an `Option` wherever
  the code treats the two alike (`?.`, `??`).  The cluster id and the name of a
  zone, which the code compares with `>=` and prints in a template literal, keep
  the three cases apart in the type `Js`.  JSON numbers are exact rationals
  (`ℚ`), counts and cluster ids are integers.
* React state is a record; every handler is a function on that record.  The
  promises suspended at the `await` of `loadData` are made explicit as the list
  `inflight` of the record: a request stays there from the moment `loadData`
  calls `fetchDashboardAll` until its promise settles.
* The functions `setFilter` and `refresh` give the React state after a handler
  and the effect it triggers.  What is on the page is the view committed last;
  `Page` keeps it next to the state, and `step` commits the loading view in a
  re-render of its own, after the click whose effect raised the loading flag.
-/

namespace NycTaxi

/-! ## api.js -/

/-- The constant `API_BASE`. -/
def API_BASE : String := "/api"

/-- JavaScript truthiness of a possibly absent string: absent and `''` are falsy. -/
def truthy : Option String → Bool
  | none => false
  | some s => s != ""

/-- The test `path.includes('?')`. -/
def includesQuestionMark (path : String) : Bool :=
  path.data.contains '?'

/-- The function `withCabType(path, cabType)` of api.js. -/
def withCabType (path : String) (cabType : Option String) : String :=
  match cabType with
  | some c =>
    if truthy (some c) && c != "all" then
      let sep := if includesQuestionMark path then "&" else "?"
      path ++ sep ++ "cab_type=" ++ c
    else path
  | none => path

/-- The URL computed by `fetchDashboardAll(cabType = 'all')`: an omitted argument
takes the default `'all'`. -/
def dashboardUrl (cabType : Option String) : String :=
  withCabType (API_BASE ++ "/dashboard/") (some (cabType.getD "all"))

/-! ## The payload of the combined endpoint -/

/-- A field of a JSON object as JavaScript reads it: the key is missing
(`undefined`), the value is `null`, or there is a value. -/
inductive Js (α : Type) where
  | undefined
  | null
  | val (a : α)
  deriving DecidableEq, Repr

/-- The value of a field, with `undefined` and `null` taken together. -/
def Js.toOption {α : Type} : Js α → Option α
  | .val a => some a
  | _ => none

/-- The `metrics` sub-result. -/
structure Metrics where
  total_trips : Option Int
  avg_fare : Option ℚ
  avg_distance : Option ℚ
  busiest_hour : Option String
  deriving DecidableEq, Repr

/-- A label/value series (`trips_over_time`, `payment_type`, `trips_by_hour`,
`trips_by_weekday`). -/
structure Series where
  labels : Option (List String)
  data : Option (List ℚ)
  deriving DecidableEq, Repr

/-- One point of `heatmap.points`. -/
structure HeatPoint where
  lat : ℚ
  lon : ℚ
  zone : Js String
  count : Int
  deriving DecidableEq, Repr

/-- The `heatmap` sub-result. -/
structure Heatmap where
  points : Option (List HeatPoint)
  deriving DecidableEq, Repr

/-- The `demand_predictions` sub-result. -/
structure DemandPred where
  labels : Option (List String)
  actual : Option (List ℚ)
  predicted : Option (List ℚ)
  deriving DecidableEq, Repr

/-- One zone of `cluster_zones.zones`.  The cluster id is an integer, `null`, or
missing (a zone without a `cluster` key, which reads as `undefined`). -/
structure ClusterZone where
  lat : ℚ
  lon : ℚ
  zone : Js String
  count : Int
  cluster : Js Int
  deriving DecidableEq, Repr

/-- The `cluster_zones` sub-result. -/
structure Clusters where
  zones : Option (List ClusterZone)
  deriving DecidableEq, Repr

/-- The `duration_predictions` sub-result. -/
structure DurationPred where
  labels : Option (List String)
  actual : Option (List ℚ)
  deriving DecidableEq, Repr

/-- The object returned by `res.json()` for the combined endpoint; a key that is
missing or `null` is `none`. -/
structure Payload where
  metrics : Option Metrics
  trips_over_time : Option Series
  payment_type : Option Series
  trips_by_hour : Option Series
  trips_by_weekday : Option Series
  heatmap : Option Heatmap
  demand_predictions : Option DemandPred
  cluster_zones : Option Clusters
  duration_predictions : Option DurationPred
  deriving DecidableEq, Repr

/-- How the promise of `fetch(url)` settles: it rejects with an error message, or
it yields a response with its `ok` flag and the outcome of `res.json()`. -/
inductive Settled where
  | rejected (message : String)
  | response (ok : Bool) (json : Except String Payload)

/-- The body of `fetchDashboardAll` after `await fetch(url)`: a thrown error is
`Except.error` of its message. -/
def fetchDashboardAll (r : Settled) : Except String Payload :=
  match r with
  | .rejected m => .error m
  | .response ok json =>
    if !ok then .error "Failed to fetch dashboard" else json

/-! ## Dashboard.jsx: state and handlers -/

/-- A call of `fetchDashboardAll(cabFilter)` whose promise has not settled yet;
`id` is its position in the order of issue. -/
structure Request where
  id : Nat
  cabType : String
  deriving DecidableEq, Repr

/-- The React state of `Dashboard` (the twelve `useState` cells), the requests
in flight and the number of requests issued so far. -/
structure State where
  cabFilter : String
  metrics : Option Metrics
  tripsOverTime : Option Series
  paymentType : Option Series
  tripsByHour : Option Series
  tripsByWeekday : Option Series
  heatmap : Option Heatmap
  demandPred : Option DemandPred
  clusters : Option Clusters
  durationPred : Option DurationPred
  loading : Bool
  error : Option String
  refreshKey : Nat
  inflight : List Request
  issued : Nat
  deriving DecidableEq, Repr

/-- The initial values of the `useState` cells; nothing has been requested. -/
def initialState : State :=
  { cabFilter := "yellow", metrics := none, tripsOverTime := none, paymentType := none,
    tripsByHour := none, tripsByWeekday := none, heatmap := none, demandPred := none,
    clusters := none, durationPred := none, loading := true, error := none,
    refreshKey := 0, inflight := [], issued := 0 }

/-- The synchronous part of `loadData`: `setLoading(true)`, `setError(null)` and
the call `fetchDashboardAll(cabFilter)`, which stays in flight. -/
def loadData (s : State) : State :=
  { s with loading := true, error := none,
           inflight := s.inflight ++ [{ id := s.issued, cabType := s.cabFilter }],
           issued := s.issued + 1 }

/-- Mounting the component: the effect runs once on the initial state. -/
def mount : State := loadData initialState

/-- The click handler `setCabFilter(dim)`.  React keeps the state and renders
nothing anew when the value is the one already held, and the effect, which
depends on `[cabFilter, refreshKey]`, runs only when the value changed. -/
def setFilter (dim : String) (s : State) : State :=
  if dim = s.cabFilter then s else loadData { s with cabFilter := dim }

/-- The click handler `setRefreshKey((k) => k + 1)` and the effect it triggers. -/
def refresh (s : State) : State :=
  loadData { s with refreshKey := s.refreshKey + 1 }

/-- The part of `loadData` after the `await`: on success the nine setters, on a
thrown error `setError(e.message)`, and `setLoading(false)` in both cases. -/
def settle (o : Except String Payload) (s : State) : State :=
  match o with
  | .ok data =>
    { s with metrics := data.metrics, tripsOverTime := data.trips_over_time,
             paymentType := data.payment_type, tripsByHour := data.trips_by_hour,
             tripsByWeekday := data.trips_by_weekday, heatmap := data.heatmap,
             demandPred := data.demand_predictions, clusters := data.cluster_zones,
             durationPred := data.duration_predictions, loading := false }
  | .error message => { s with error := some message, loading := false }

/-- Resolution of the request with identifier `id`: it leaves the list of
requests in flight and the rest of `loadData` runs.  There is no result when no
such request is in flight. -/
def resolve (id : Nat) (o : Except String Payload) (s : State) : Option State :=
  if s.inflight.any (fun r => r.id == id) then
    some (settle o { s with inflight := s.inflight.filter (fun r => r.id != id) })
  else none

/-- The nine sub-result slots of a state. -/
structure Slots where
  metrics : Option Metrics
  tripsOverTime : Option Series
  paymentType : Option Series
  tripsByHour : Option Series
  tripsByWeekday : Option Series
  heatmap : Option Heatmap
  demandPred : Option DemandPred
  clusters : Option Clusters
  durationPred : Option DurationPred
  deriving DecidableEq, Repr

/-- The slots held by a state. -/
def State.slots (s : State) : Slots :=
  { metrics := s.metrics, tripsOverTime := s.tripsOverTime, paymentType := s.paymentType,
    tripsByHour := s.tripsByHour, tripsByWeekday := s.tripsByWeekday, heatmap := s.heatmap,
    demandPred := s.demandPred, clusters := s.clusters, durationPred := s.durationPred }

/-- The slots a payload fills, field by like-named field. -/
def Payload.slots (d : Payload) : Slots :=
  { metrics := d.metrics, tripsOverTime := d.trips_over_time, paymentType := d.payment_type,
    tripsByHour := d.trips_by_hour, tripsByWeekday := d.trips_by_weekday, heatmap := d.heatmap,
    demandPred := d.demand_predictions, clusters := d.cluster_zones,
    durationPred := d.duration_predictions }

/-- All nine slots absent. -/
def Slots.empty : Slots :=
  { metrics := none, tripsOverTime := none, paymentType := none, tripsByHour := none,
    tripsByWeekday := none, heatmap := none, demandPred := none, clusters := none,
    durationPred := none }

/-! ## Dashboard.jsx: the view-model mappers -/

/-- The `x` and `y` of the single trace built by `makeLineData` and `makeBarData`. -/
structure SeriesPlot where
  x : List String
  y : List ℚ
  deriving DecidableEq, Repr

/-- The function `makeLineData`: `data?.labels ?? []` and `data?.data ?? []`. -/
def makeLineData (data : Option Series) : SeriesPlot :=
  { x := (data.bind fun d => d.labels).getD [], y := (data.bind fun d => d.data).getD [] }

/-- The function `makeBarData`; it differs from `makeLineData` in the trace type only. -/
def makeBarData (data : Option Series) : SeriesPlot :=
  { x := (data.bind fun d => d.labels).getD [], y := (data.bind fun d => d.data).getD [] }

/-- The test `v?.seq?.length > 0` on the sequence reached through the optional
chain: an absent sequence compares as `undefined > 0`, which is false. -/
def gateOpen {α : Type} (seq : Option (List α)) : Bool :=
  match seq with
  | some l => decide (l.length > 0)
  | none => false

/-- One trace of the demand chart. -/
structure Trace where
  name : String
  x : List String
  y : Option (List ℚ)
  deriving DecidableEq, Repr

/-- The data of the demand chart: the traces `Actual` and `Predicted`. -/
def demandTraces (labels : List String) (d : DemandPred) : List Trace :=
  [ { name := "Actual", x := labels, y := d.actual },
    { name := "Predicted", x := labels, y := d.predicted } ]

/-- The expression `durationPred.labels.map((_, i) => i)`. -/
def xIndices (labels : List String) : List Nat :=
  labels.mapIdx fun i _ => i

/-- The fare chart: the bar trace and the tick settings of its x axis. -/
structure FarePlot where
  x : List Nat
  y : Option (List ℚ)
  tickvals : List Nat
  ticktext : List String
  deriving DecidableEq, Repr

/-- The plot built inside the `Fare Distribution` card. -/
def farePlot (labels : List String) (d : DurationPred) : FarePlot :=
  { x := xIndices labels, y := d.actual, tickvals := xIndices labels, ticktext := labels }

/-- The heatmap marker size `Math.min(22, 5 + p.count / 200)`. -/
def heatmapMarkerSize (w : ℚ) : ℚ := min 22 (5 + w / 200)

/-- The cluster-map marker size `Math.min(18, 5 + z.count / 500)`. -/
def clusterMarkerSize (w : ℚ) : ℚ := min 18 (5 + w / 500)

/-- The comparison `v >= 0` of JavaScript: `undefined` becomes `NaN` and the
comparison is false, `null` becomes `0` and the comparison is true. -/
def geZero : Js Int → Bool
  | .undefined => false
  | .null => true
  | .val c => decide (c ≥ 0)

/-- The colour value of a zone: `z.cluster >= 0 ? z.cluster : -1`. -/
def clusterColor (z : ClusterZone) : Js Int :=
  if geZero z.cluster then z.cluster else .val (-1)

/-- A number in a template literal. -/
def showInt : Js Int → String
  | .undefined => "undefined"
  | .null => "null"
  | .val c => toString c

/-- The tail of a zone's hover text: `z.cluster >= 0` chooses between the
cluster number and `Noise`. -/
def clusterSuffix (z : ClusterZone) : String :=
  if geZero z.cluster then " · Cluster " ++ showInt z.cluster else " · Noise"

/-- A string in a template literal. -/
def showString : Js String → String
  | .undefined => "undefined"
  | .null => "null"
  | .val s => s

/-- The hover text of a zone on the cluster map. -/
def clusterText (z : ClusterZone) : String :=
  showString z.zone ++ " (" ++ toString z.count ++ " trips)" ++ clusterSuffix z

/-- The hover text of a heatmap point: `p.zone || 'Zone'`, then the count. -/
def heatmapText (p : HeatPoint) : String :=
  (if truthy p.zone.toOption then showString p.zone else "Zone")
    ++ ": " ++ toString p.count ++ " pickups"

/-- The trace of a map plot. -/
structure MapPlot where
  lat : List ℚ
  lon : List ℚ
  text : List String
  size : List ℚ
  color : List (Js Int)
  deriving DecidableEq, Repr

/-- The trace of the `Pickup Heatmap` card. -/
def heatmapPlot (points : List HeatPoint) : MapPlot :=
  { lat := points.map fun p => p.lat, lon := points.map fun p => p.lon,
    text := points.map heatmapText,
    size := points.map fun p => heatmapMarkerSize p.count,
    color := points.map fun p => .val p.count }

/-- The trace of the `Demand Clusters` card. -/
def clusterPlot (zones : List ClusterZone) : MapPlot :=
  { lat := zones.map fun z => z.lat, lon := zones.map fun z => z.lon,
    text := zones.map clusterText,
    size := zones.map fun z => clusterMarkerSize z.count,
    color := zones.map clusterColor }

/-! ## Dashboard.jsx: the render projection -/

/-- The body of a gated chart card: the plot, or the `chart-empty` text. -/
inductive Panel (α : Type) where
  | plot (p : α)
  | empty (text : String)
  deriving DecidableEq, Repr

/-- The body of the `Demand Prediction` card. -/
def demandPanel (d : Option DemandPred) : Panel (List Trace) :=
  match d with
  | some dp =>
    match dp.labels with
    | some labels =>
      if gateOpen (some labels) then .plot (demandTraces labels dp)
      else .empty "Need 7+ days of data"
    | none => .empty "Need 7+ days of data"
  | none => .empty "Need 7+ days of data"

/-- The body of the `Fare Distribution` card. -/
def farePanel (d : Option DurationPred) : Panel FarePlot :=
  match d with
  | some dp =>
    match dp.labels with
    | some labels =>
      if gateOpen (some labels) then .plot (farePlot labels dp)
      else .empty "Need 50+ valid trips (distance > 0, fare ≥ 0)"
    | none => .empty "Need 50+ valid trips (distance > 0, fare ≥ 0)"
  | none => .empty "Need 50+ valid trips (distance > 0, fare ≥ 0)"

/-- The `Pickup Heatmap` card, present only behind `heatmap?.points?.length > 0`. -/
def heatmapCard (h : Option Heatmap) : Option MapPlot :=
  match h with
  | some hm =>
    match hm.points with
    | some points => if gateOpen (some points) then some (heatmapPlot points) else none
    | none => none
  | none => none

/-- The `Demand Clusters` card, present only behind `clusters?.zones?.length > 0`. -/
def clusterCard (c : Option Clusters) : Option MapPlot :=
  match c with
  | some cl =>
    match cl.zones with
    | some zones => if gateOpen (some zones) then some (clusterPlot zones) else none
    | none => none
  | none => none

/-- The chart area of the full dashboard: the four aggregation charts, the two
gated prediction cards and the two gated map cards. -/
structure DashboardView where
  cabFilter : String
  tripsOverTime : SeriesPlot
  tripsByHour : SeriesPlot
  tripsByWeekday : SeriesPlot
  paymentType : SeriesPlot
  demand : Panel (List Trace)
  fare : Panel FarePlot
  heatmap : Option MapPlot
  clusterMap : Option MapPlot
  deriving DecidableEq, Repr

/-- What `Dashboard` returns: the loading indicator, the error panel with its
message and hint, or the full dashboard. -/
inductive View where
  | loading
  | errorPanel (message : String) (hint : String)
  | dashboard (d : DashboardView)
  deriving DecidableEq, Repr

/-- The chart area computed from the state. -/
def dashboardView (s : State) : DashboardView :=
  { cabFilter := s.cabFilter,
    tripsOverTime := makeLineData s.tripsOverTime,
    tripsByHour := makeBarData s.tripsByHour,
    tripsByWeekday := makeBarData s.tripsByWeekday,
    paymentType := makeBarData s.paymentType,
    demand := demandPanel s.demandPred,
    fare := farePanel s.durationPred,
    heatmap := heatmapCard s.heatmap,
    clusterMap := clusterCard s.clusters }

/-- The return value of the component: `if (loading)`, then `if (error)`, then
the dashboard. -/
def render (s : State) : View :=
  if s.loading then .loading
  else
    match s.error with
    | some m =>
      if truthy (some m) then .errorPanel m "Upload some data first from the Upload page."
      else .dashboard (dashboardView s)
    | none => .dashboard (dashboardView s)

/-! ## Reference quantities used in the statements -/

/-- The URL a request in flight was sent to. -/
def Request.url (r : Request) : String := dashboardUrl (some r.cabType)

/-- Whether the request `id` is in flight. -/
def State.inFlight (s : State) (id : Nat) : Bool :=
  s.inflight.any fun r => r.id == id

/-- The slots after a resolution is applied on top of `prior`: a success puts its
payload there, a failure leaves them. -/
def slotsAfter (o : Except String Payload) (prior : Slots) : Slots :=
  match o with
  | .ok d => d.slots
  | .error _ => prior

/-- The error after a resolution is applied on top of `prior`: a failure puts its
message there, a success leaves it. -/
def errorAfter (o : Except String Payload) (prior : Option String) : Option String :=
  match o with
  | .ok _ => prior
  | .error m => some m

/-- Two outcomes of the same kind: both successes or both failures. -/
def sameKind (o1 o2 : Except String Payload) : Bool :=
  match o1, o2 with
  | .ok _, .ok _ => true
  | .error _, .error _ => true
  | _, _ => false

/-- A sequence that is present and non-empty. -/
def presentNonEmpty {α : Type} (seq : Option (List α)) : Prop :=
  ∃ l, seq = some l ∧ l ≠ []

/-- A noise point: the id is a negative integer or there is no id, the key
being missing or its value `null`. -/
def noisePoint (z : ClusterZone) : Prop :=
  z.cluster = .undefined ∨ z.cluster = .null ∨ ∃ c, z.cluster = .val c ∧ c < 0

/-! ## Sample data -/

/-- A payload with nothing but a trip total. -/
def payloadWithTotal (n : Int) : Payload :=
  { metrics := some { total_trips := some n, avg_fare := none, avg_distance := none,
                      busiest_hour := none },
    trips_over_time := none, payment_type := none, trips_by_hour := none,
    trips_by_weekday := none, heatmap := none, demand_predictions := none,
    cluster_zones := none, duration_predictions := none }

/-- The bundle served for the yellow filter in the examples. -/
def yellowPayload : Payload := payloadWithTotal 100

/-- The bundle served for the green filter in the examples. -/
def greenPayload : Payload := payloadWithTotal 7

/-- The state after the mount request succeeded with the yellow bundle. -/
def readyYellow : State :=
  (resolve 0 (.ok yellowPayload) mount).getD mount

/-- A payload whose heatmap has no points and whose cluster map has one zone,
one of them noise-free. -/
def emptyHeatmapPayload : Payload :=
  { metrics := none, trips_over_time := none, payment_type := none, trips_by_hour := none,
    trips_by_weekday := none,
    heatmap := some { points := some [] },
    demand_predictions := some { labels := some [], actual := some [], predicted := some [] },
    cluster_zones := some { zones := some [ { lat := 0, lon := 0, zone := .val "Midtown",
                                              count := 12, cluster := .val 2 } ] },
    duration_predictions := none }

/-- A zone of the cluster map whose cluster id is JSON `null`. -/
def nullIdZone : ClusterZone :=
  { lat := 0, lon := 0, zone := .val "SoHo", count := 40, cluster := .null }

/-- The state after the mount request succeeded with `emptyHeatmapPayload`. -/
def readyEmptyHeatmap : State :=
  (resolve 0 (.ok emptyHeatmapPayload) mount).getD mount

/-! ## The steps the rendered page allows -/

/-- The two filter buttons of the dashboard header. -/
inductive FilterButton where
  | yellow
  | green
  deriving DecidableEq, Repr

/-- The value a filter button passes to `setCabFilter`. -/
def FilterButton.value : FilterButton → String
  | .yellow => "yellow"
  | .green => "green"

/-- The mounted component: the React state, with every queued update applied,
and the view committed last, which is what the page shows and what a click can
land on. -/
structure Page where
  state : State
  shown : View
  deriving DecidableEq, Repr

/-- The page after mounting: the first render, on the initial state, committed
the loading view, and the effect issued the first request. -/
def mountPage : Page :=
  { state := mount, shown := render initialState }

/-- What can happen to a mounted dashboard: a click on a filter button, a click
on the refresh button, the re-render that commits the updates queued by an
effect, or the resolution of a request with some outcome. -/
inductive Event where
  | clickFilter (b : FilterButton)
  | clickRefresh
  | rerender
  | resolution (id : Nat) (o : Except String Payload)

/-- Whether the page shows the full dashboard, the only view that holds the
filter buttons and the refresh button. -/
def buttonsShown (p : Page) : Bool :=
  match p.shown with
  | .dashboard _ => true
  | _ => false

/-- One step of the mounted component.

A click needs its button on the page.  The handler changes `cabFilter` or
`refreshKey`; the component renders with the new value and that view is
committed; then the effect runs `loadData`, which issues the request and queues
`setLoading(true)` and `setError(null)`.  The view with the raised loading flag
is committed by a later `rerender`, so until then the page keeps what the click
committed.  `setCabFilter` with the value already held renders nothing and runs
no effect.  The refresh button is `disabled={loading}`, and a committed dashboard
was rendered with loading false.

A resolution needs its request in flight; its setters are followed by a render
that is committed.  There is no result when the event cannot happen. -/
def step (e : Event) (p : Page) : Option Page :=
  match e with
  | .clickFilter b =>
    if buttonsShown p then
      if b.value = p.state.cabFilter then some p
      else some { state := setFilter b.value p.state,
                  shown := render { p.state with cabFilter := b.value } }
    else none
  | .clickRefresh =>
    if buttonsShown p then
      some { state := refresh p.state,
             shown := render { p.state with refreshKey := p.state.refreshKey + 1 } }
    else none
  | .rerender => some { p with shown := render p.state }
  | .resolution id o =>
    match resolve id o p.state with
    | some s => some { state := s, shown := render s }
    | none => none

/-- The page after a sequence of events, when every one of them can happen. -/
def run : List Event → Page → Option Page
  | [], p => some p
  | e :: es, p => (step e p).bind (run es)

/-- The sequence of events in which the re-render that follows a click is
committed before anything else happens. -/
def promptly : List Event → List Event
  | [] => []
  | .clickFilter b :: es => .clickFilter b :: .rerender :: promptly es
  | .clickRefresh :: es => .clickRefresh :: .rerender :: promptly es
  | .rerender :: es => .rerender :: promptly es
  | .resolution id o :: es => .resolution id o :: promptly es

/-- At most one request is in flight, and loading is true exactly while one is. -/
def SingleFlight (s : State) : Prop :=
  s.inflight.length ≤ 1 ∧ (s.loading = true ↔ s.inflight ≠ [])

/-- A page whose view is the one its state renders to. -/
def UpToDate (p : Page) : Prop :=
  p.shown = render p.state

/-- Two clicks in a row on a loaded dashboard: the mount request succeeds, the
green button is clicked, and the yellow button is clicked before the loading
view is committed. -/
def doubleClick : List Event :=
  [.resolution 0 (.ok yellowPayload), .clickFilter .green, .clickFilter .yellow]

/-- The state after `doubleClick`: the requests 1, for green, and 2, for yellow,
are in flight and the filter is yellow. -/
def overlapState : State :=
  ((run doubleClick mountPage).getD mountPage).state

/-- A run on a loaded dashboard: the mount request succeeds, the green button is
clicked, and green's request fails. -/
def sampleRun : List Event :=
  [.resolution 0 (.ok yellowPayload), .clickFilter .green,
   .resolution 1 (.error "Failed to fetch dashboard")]

/-- The page at the end of `sampleRun`, the re-render after the click committed
at once: the error panel. -/
def afterSampleRun : Page :=
  (run (promptly sampleRun) mountPage).getD mountPage

/-! ## Lemmas on the state machine -/

theorem settle_inflight (o : Except String Payload) (s : State) :
    (settle o s).inflight = s.inflight := by
  cases o <;> rfl

theorem settle_loading (o : Except String Payload) (s : State) :
    (settle o s).loading = false := by
  cases o <;> rfl

theorem settle_slots (o : Except String Payload) (s : State) :
    (settle o s).slots = slotsAfter o s.slots := by
  cases o <;> rfl

theorem settle_error (o : Except String Payload) (s : State) :
    (settle o s).error = errorAfter o s.error := by
  cases o <;> rfl

theorem settle_cabFilter (o : Except String Payload) (s : State) :
    (settle o s).cabFilter = s.cabFilter := by
  cases o <;> rfl

theorem resolve_of_inFlight (id : Nat) (o : Except String Payload) (s : State)
    (h : s.inFlight id = true) :
    resolve id o s
      = some (settle o { s with inflight := s.inflight.filter fun r => r.id != id }) := by
  unfold State.inFlight at h
  simp [resolve, h]

theorem resolve_of_not_inFlight (id : Nat) (o : Except String Payload) (s : State)
    (h : s.inFlight id = false) : resolve id o s = none := by
  unfold State.inFlight at h
  simp [resolve, h]

theorem any_filter_other (l : List Request) (a b : Nat) (hab : a ≠ b) :
    (l.filter fun r => r.id != a).any (fun r => r.id == b) = l.any fun r => r.id == b := by
  induction l with
  | nil => rfl
  | cons r t ih =>
    by_cases hra : r.id = a
    · have hrb : r.id ≠ b := fun h => hab (hra.symm.trans h)
      have h1 : (r.id != a) = false := by simp [hra]
      have h2 : (r.id == b) = false := by simp [hrb]
      rw [List.filter_cons, List.any_cons]
      simp only [h1, h2, ih, Bool.false_or, Bool.false_eq_true, if_false]
    · have h1 : (r.id != a) = true := by simp [hra]
      rw [List.filter_cons, List.any_cons]
      simp only [h1, if_true, List.any_cons, ih]

theorem loadData_inFlight (s : State) : (loadData s).inFlight s.issued = true := by
  simp [loadData, State.inFlight]

theorem render_errorPanel (s : State) (m : String) (hl : s.loading = false)
    (he : s.error = some m) (hm : m ≠ "") :
    render s = .errorPanel m "Upload some data first from the Upload page." := by
  simp [render, hl, he, truthy, hm]

theorem render_dashboard (s : State) (hl : s.loading = false) (he : truthy s.error = false) :
    render s = .dashboard (dashboardView s) := by
  unfold render
  rw [hl]
  cases h : s.error with
  | none => simp
  | some m =>
    rw [h] at he
    simp [he]

/-! ## C1: supersession -/

/-- C1, refuted as stated: on a loaded dashboard whose filter is yellow the green
button and then the yellow button are clicked, the second click landing before
the loading view is committed.  Request 1, for green, is in flight when request
2, for yellow, is issued.  Yellow's request succeeds first and green's
afterwards: the slots then hold green's bundle under the yellow filter, not the
bundle that the resolution of the later request alone produces. -/
theorem supersession_counterexample :
    (run doubleClick mountPage).map (fun p => p.state.inflight)
        = some [{ id := 1, cabType := "green" }, { id := 2, cabType := "yellow" }]
    ∧ (run (doubleClick ++ [.resolution 2 (.ok yellowPayload),
                            .resolution 1 (.ok greenPayload)]) mountPage).map
          (fun p => p.state.slots) = some greenPayload.slots
    ∧ (run (doubleClick ++ [.resolution 2 (.ok yellowPayload),
                            .resolution 1 (.ok greenPayload)]) mountPage).map
          (fun p => p.state.cabFilter) = some "yellow"
    ∧ (run (doubleClick ++ [.resolution 2 (.ok yellowPayload)]) mountPage).map
          (fun p => p.state.slots) = some yellowPayload.slots
    ∧ greenPayload.slots ≠ yellowPayload.slots := by
  decide

/-- C1, amended: resolutions are applied in the order in which they arrive.  For
two distinct requests in flight, the first to resolve with outcome `o1` and the
second with `o2`, both resolutions take place, loading ends false, the slots are
those of the success that resolved last (the prior slots when neither
succeeded) and the error is the message of the failure that resolved last (the
prior error when neither failed).  When the two outcomes are of the same kind
the result agrees, on slots, error and loading flag, with what the second
resolution alone produces. -/
theorem resolutions_apply_in_arrival_order (s : State) (a b : Nat)
    (o1 o2 : Except String Payload) (hab : a ≠ b)
    (ha : s.inFlight a = true) (hb : s.inFlight b = true) :
    ∃ s1 s2, resolve a o1 s = some s1 ∧ resolve b o2 s1 = some s2
      ∧ s2.loading = false
      ∧ s2.slots = slotsAfter o2 (slotsAfter o1 s.slots)
      ∧ s2.error = errorAfter o2 (errorAfter o1 s.error)
      ∧ s2.inFlight a = false ∧ s2.inFlight b = false
      ∧ (sameKind o1 o2 = true → ∃ sB, resolve b o2 s = some sB
          ∧ s2.slots = sB.slots ∧ s2.error = sB.error ∧ s2.loading = sB.loading) := by
  have hb1 : (settle o1 { s with inflight := s.inflight.filter fun r => r.id != a }).inFlight b
      = true := by
    unfold State.inFlight at hb ⊢
    rw [settle_inflight]
    simpa [any_filter_other s.inflight a b hab] using hb
  refine ⟨_, _, resolve_of_inFlight a o1 s ha, resolve_of_inFlight b o2 _ hb1, ?_, ?_, ?_, ?_, ?_, ?_⟩
  · exact settle_loading _ _
  · rw [settle_slots]
    show slotsAfter o2 (settle o1 _).slots = _
    rw [settle_slots]
    rfl
  · rw [settle_error]
    show errorAfter o2 (settle o1 _).error = _
    rw [settle_error]
  · unfold State.inFlight
    rw [settle_inflight]
    simp only [settle_inflight]
    simp [List.any_eq_true, List.mem_filter]
  · unfold State.inFlight
    rw [settle_inflight]
    simp [List.any_eq_true, List.mem_filter]
  · intro hk
    refine ⟨_, resolve_of_inFlight b o2 s hb, ?_, ?_, ?_⟩
    · cases o1 <;> cases o2 <;> first | rfl | exact absurd hk (by simp [sameKind])
    · cases o1 <;> cases o2 <;> first | rfl | exact absurd hk (by simp [sameKind])
    · rw [settle_loading, settle_loading]

/-- Witness of `resolutions_apply_in_arrival_order`: in the state after the two
clicks of `doubleClick`, yellow's request 2 resolves first and green's request 1
second. -/
theorem resolutions_apply_in_arrival_order_witness :
    (run doubleClick mountPage).map (fun p => p.state) = some overlapState
    ∧ (2 : Nat) ≠ 1
    ∧ overlapState.inFlight 2 = true
    ∧ overlapState.inFlight 1 = true
    ∧ ∃ s1 s2, resolve 2 (.ok yellowPayload) overlapState = some s1
      ∧ resolve 1 (.ok greenPayload) s1 = some s2
      ∧ s2.loading = false
      ∧ s2.slots = slotsAfter (.ok greenPayload)
          (slotsAfter (.ok yellowPayload) overlapState.slots)
      ∧ s2.error = errorAfter (.ok greenPayload)
          (errorAfter (.ok yellowPayload) overlapState.error)
      ∧ s2.inFlight 2 = false ∧ s2.inFlight 1 = false
      ∧ (sameKind (.ok yellowPayload) (.ok greenPayload) = true →
          ∃ sB, resolve 1 (.ok greenPayload) overlapState = some sB
            ∧ s2.slots = sB.slots ∧ s2.error = sB.error ∧ s2.loading = sB.loading) :=
  ⟨by decide, by decide, by decide, by decide,
    resolutions_apply_in_arrival_order overlapState 2 1
      (.ok yellowPayload) (.ok greenPayload) (by decide) (by decide) (by decide)⟩

/-! ## C2: a failed request -/

/-- C2, refuted as stated: after a successful load of the yellow bundle a refresh
is answered with a non-2xx status; the slots still hold the yellow bundle and are
not absent. -/
theorem failure_keeps_slots_counterexample :
    readyYellow.slots = yellowPayload.slots
    ∧ (resolve 1 (fetchDashboardAll (.response false (.ok greenPayload)))
        (refresh readyYellow)).map State.slots = some yellowPayload.slots
    ∧ (resolve 1 (fetchDashboardAll (.response false (.ok greenPayload)))
        (refresh readyYellow)).map State.error = some (some "Failed to fetch dashboard")
    ∧ yellowPayload.slots ≠ Slots.empty := by
  decide

/-- C2, amended: when a request in flight fails with message `m` (a rejected
fetch, a non-2xx response or a failed `res.json()`), the resulting state has error
`m` and loading false, and the nine slots are exactly the slots held before: a
failure writes none of them. -/
theorem failure_sets_error_and_keeps_slots (s : State) (id : Nat) (r : Settled) (m : String)
    (hid : s.inFlight id = true) (hf : fetchDashboardAll r = .error m) :
    ∃ s1, resolve id (fetchDashboardAll r) s = some s1
      ∧ s1.error = some m ∧ s1.loading = false ∧ s1.slots = s.slots := by
  refine ⟨_, resolve_of_inFlight id _ s hid, ?_, ?_, ?_⟩
  · rw [hf]; rfl
  · exact settle_loading _ _
  · rw [hf]; rfl

/-- Witness of `failure_sets_error_and_keeps_slots`: the mount request is
answered with a non-2xx status. -/
theorem failure_sets_error_and_keeps_slots_witness :
    mount.inFlight 0 = true
    ∧ fetchDashboardAll (.response false (.ok yellowPayload)) = .error "Failed to fetch dashboard"
    ∧ ∃ s1, resolve 0 (fetchDashboardAll (.response false (.ok yellowPayload))) mount = some s1
      ∧ s1.error = some "Failed to fetch dashboard" ∧ s1.loading = false
      ∧ s1.slots = mount.slots :=
  ⟨by decide, rfl,
    failure_sets_error_and_keeps_slots mount 0 (.response false (.ok yellowPayload))
      "Failed to fetch dashboard" (by decide) rfl⟩

/-! ## C3: the error panel -/

/-- C3, refuted as stated: a failure whose message is the empty string leaves an
error that `if (error)` takes for absent, and the full dashboard is rendered
instead of the error panel. -/
theorem empty_message_counterexample :
    (resolve 0 (.error "") mount).map State.error = some (some "")
    ∧ (resolve 0 (.error "") mount).map render
        = some (.dashboard (dashboardView initialState))
    ∧ (resolve 0 (.error "") mount).map render
        ≠ some (.errorPanel "" "Upload some data first from the Upload page.") := by
  decide

/-- C3, amended: for every failed request whose message `m` is not the empty
string, the view after the resolution is the error panel showing `m` verbatim
with the upload hint; it is neither the loading indicator nor a dashboard. -/
theorem failure_renders_error_panel (s : State) (id : Nat) (r : Settled) (m : String)
    (hid : s.inFlight id = true) (hf : fetchDashboardAll r = .error m) (hm : m ≠ "") :
    ∃ s1, resolve id (fetchDashboardAll r) s = some s1
      ∧ render s1 = .errorPanel m "Upload some data first from the Upload page."
      ∧ render s1 ≠ .loading ∧ ∀ d, render s1 ≠ .dashboard d := by
  have hr : render (settle (fetchDashboardAll r)
      { s with inflight := s.inflight.filter fun q => q.id != id })
      = .errorPanel m "Upload some data first from the Upload page." := by
    apply render_errorPanel _ m (settle_loading _ _) _ hm
    rw [hf]; rfl
  refine ⟨_, resolve_of_inFlight id _ s hid, hr, ?_, ?_⟩
  · rw [hr]; exact fun h => View.noConfusion h
  · intro d; rw [hr]; exact fun h => View.noConfusion h

/-- Witness of `failure_renders_error_panel`: a refresh of a loaded dashboard is
answered with a non-2xx status. -/
theorem failure_renders_error_panel_witness :
    (refresh readyYellow).inFlight 1 = true
    ∧ fetchDashboardAll (.response false (.ok greenPayload)) = .error "Failed to fetch dashboard"
    ∧ "Failed to fetch dashboard" ≠ ""
    ∧ ∃ s1, resolve 1 (fetchDashboardAll (.response false (.ok greenPayload)))
          (refresh readyYellow) = some s1
      ∧ render s1 = .errorPanel "Failed to fetch dashboard"
          "Upload some data first from the Upload page."
      ∧ render s1 ≠ .loading ∧ ∀ d, render s1 ≠ .dashboard d :=
  ⟨by decide, rfl, by decide,
    failure_renders_error_panel (refresh readyYellow) 1 (.response false (.ok greenPayload))
      "Failed to fetch dashboard" (by decide) rfl (by decide)⟩

/-! ## C4: issuing requests -/

/-- C4, refuted as stated: on a loaded dashboard whose filter is yellow,
`setFilter` with yellow changes nothing: loading stays false and no request is
issued. -/
theorem same_filter_counterexample :
    readyYellow.cabFilter = "yellow"
    ∧ setFilter "yellow" readyYellow = readyYellow
    ∧ (setFilter "yellow" readyYellow).loading = false
    ∧ (setFilter "yellow" readyYellow).inflight = [] := by
  decide

/-- C4, amended: mounting, every `refresh` and every `setFilter` with a value
that differs from the current filter set loading and issue exactly one request,
to the combined-dashboard endpoint, carrying the filter current after the call;
`setFilter` with the current filter changes nothing and issues no request. -/
theorem issue_exactly_one_request (s : State) (dim : String) (hd : dim ≠ s.cabFilter) :
    (mount.loading = true ∧ render mount = .loading
        ∧ mount.inflight = [{ id := 0, cabType := mount.cabFilter }])
    ∧ ((refresh s).loading = true ∧ render (refresh s) = .loading
        ∧ (refresh s).cabFilter = s.cabFilter
        ∧ (refresh s).inflight
            = s.inflight ++ [{ id := s.issued, cabType := (refresh s).cabFilter }])
    ∧ ((setFilter dim s).loading = true ∧ render (setFilter dim s) = .loading
        ∧ (setFilter dim s).cabFilter = dim
        ∧ (setFilter dim s).inflight
            = s.inflight ++ [{ id := s.issued, cabType := (setFilter dim s).cabFilter }])
    ∧ (∀ r : Request, r.url = withCabType "/api/dashboard/" (some r.cabType))
    ∧ setFilter s.cabFilter s = s := by
  refine ⟨⟨rfl, rfl, rfl⟩, ⟨rfl, rfl, rfl, rfl⟩, ?_, ?_, ?_⟩
  · simp [setFilter, hd, loadData, render]
  · intro r; rfl
  · simp [setFilter]

/-- Witness of `issue_exactly_one_request`: the filter of a loaded yellow
dashboard is set to green. -/
theorem issue_exactly_one_request_witness :
    "green" ≠ readyYellow.cabFilter
    ∧ (setFilter "green" readyYellow).loading = true
    ∧ (setFilter "green" readyYellow).inflight = [{ id := 1, cabType := "green" }]
    ∧ (refresh readyYellow).inflight = [{ id := 1, cabType := "yellow" }] :=
  ⟨by decide,
    (issue_exactly_one_request readyYellow "green" (by decide)).2.2.1.1,
    by decide, by decide⟩

/-! ## C5: a successful request -/

/-- C5: for every state, every filter value `dim` and every payload `d`, the
request that `setFilter dim` issues carries `dim`, and its successful resolution
with `d` right after the call yields a state with loading false, error null and
filter `dim`, in which each of the nine slots is the like-named field of `d`
(nothing of an earlier bundle stays) and which renders as the full dashboard. -/
theorem setFilter_success_is_ready (s : State) (dim : String) (d : Payload) (r : Request)
    (hnew : r ∈ (setFilter dim s).inflight) (hold : r ∉ s.inflight) :
    r.cabType = dim ∧ r.url = dashboardUrl (some dim)
    ∧ ∃ s1, resolve r.id (.ok d) (setFilter dim s) = some s1
      ∧ s1.loading = false ∧ s1.error = none ∧ s1.cabFilter = dim
      ∧ s1.metrics = d.metrics ∧ s1.tripsOverTime = d.trips_over_time
      ∧ s1.paymentType = d.payment_type ∧ s1.tripsByHour = d.trips_by_hour
      ∧ s1.tripsByWeekday = d.trips_by_weekday ∧ s1.heatmap = d.heatmap
      ∧ s1.demandPred = d.demand_predictions ∧ s1.clusters = d.cluster_zones
      ∧ s1.durationPred = d.duration_predictions
      ∧ render s1 = .dashboard (dashboardView s1) := by
  by_cases hd : dim = s.cabFilter
  · rw [setFilter, if_pos hd] at hnew
    exact absurd hnew hold
  · have hs : setFilter dim s = loadData { s with cabFilter := dim } := by
      rw [setFilter, if_neg hd]
    have hr : r = { id := s.issued, cabType := dim } := by
      rw [hs] at hnew
      simp only [loadData, List.mem_append, List.mem_singleton] at hnew
      rcases hnew with h | h
      · exact absurd h hold
      · exact h
    subst hr
    have hin : (setFilter dim s).inFlight s.issued = true := by
      rw [hs]; exact loadData_inFlight { s with cabFilter := dim }
    refine ⟨rfl, rfl, _, resolve_of_inFlight s.issued (.ok d) _ hin, rfl, ?_, ?_,
      rfl, rfl, rfl, rfl, rfl, rfl, rfl, rfl, rfl, ?_⟩
    · rw [hs]; rfl
    · rw [hs]; rfl
    · apply render_dashboard
      · rfl
      · rw [hs]; rfl

/-- Witness of `setFilter_success_is_ready`: the filter of a loaded yellow
dashboard is set to green and green's bundle arrives. -/
theorem setFilter_success_is_ready_witness :
    ({ id := 1, cabType := "green" } : Request) ∈ (setFilter "green" readyYellow).inflight
    ∧ ({ id := 1, cabType := "green" } : Request) ∉ readyYellow.inflight
    ∧ ∃ s1, resolve 1 (.ok greenPayload) (setFilter "green" readyYellow) = some s1
      ∧ s1.loading = false ∧ s1.error = none ∧ s1.cabFilter = "green"
      ∧ s1.metrics = greenPayload.metrics :=
  ⟨by decide, by decide,
    let h := (setFilter_success_is_ready readyYellow "green" greenPayload
      { id := 1, cabType := "green" } (by decide) (by decide)).2.2
    ⟨h.choose, h.choose_spec.1, h.choose_spec.2.1, h.choose_spec.2.2.1,
      h.choose_spec.2.2.2.1, h.choose_spec.2.2.2.2.1⟩⟩

/-! ## C6: the threshold gate -/

theorem gateOpen_iff {α : Type} (seq : Option (List α)) :
    gateOpen seq = true ↔ presentNonEmpty seq := by
  cases seq with
  | none => simp [gateOpen, presentNonEmpty]
  | some l => cases l <;> simp [gateOpen, presentNonEmpty]

theorem demandPanel_plot_iff (d : Option DemandPred) :
    presentNonEmpty (d.bind fun p => p.labels) ↔ ∃ p, demandPanel d = .plot p := by
  rw [← gateOpen_iff]
  cases d with
  | none => simp [demandPanel, gateOpen]
  | some dp =>
    cases h : dp.labels with
    | none => simp [demandPanel, gateOpen, h]
    | some l => cases l <;> simp [demandPanel, gateOpen, h]

theorem demandPanel_closed (d : Option DemandPred)
    (h : ¬ presentNonEmpty (d.bind fun p => p.labels)) :
    demandPanel d = .empty "Need 7+ days of data" := by
  rw [← gateOpen_iff] at h
  cases d with
  | none => rfl
  | some dp =>
    cases hl : dp.labels with
    | none => simp [demandPanel, hl]
    | some l =>
      have hg : gateOpen (some l) = false := by simpa [hl] using h
      simp [demandPanel, hl, hg]

theorem farePanel_plot_iff (d : Option DurationPred) :
    presentNonEmpty (d.bind fun p => p.labels) ↔ ∃ p, farePanel d = .plot p := by
  rw [← gateOpen_iff]
  cases d with
  | none => simp [farePanel, gateOpen]
  | some dp =>
    cases h : dp.labels with
    | none => simp [farePanel, gateOpen, h]
    | some l => cases l <;> simp [farePanel, gateOpen, h]

theorem farePanel_closed (d : Option DurationPred)
    (h : ¬ presentNonEmpty (d.bind fun p => p.labels)) :
    farePanel d = .empty "Need 50+ valid trips (distance > 0, fare ≥ 0)" := by
  rw [← gateOpen_iff] at h
  cases d with
  | none => rfl
  | some dp =>
    cases hl : dp.labels with
    | none => simp [farePanel, hl]
    | some l =>
      have hg : gateOpen (some l) = false := by simpa [hl] using h
      simp [farePanel, hl, hg]

theorem heatmapCard_some_iff (h : Option Heatmap) :
    presentNonEmpty (h.bind fun m => m.points) ↔ heatmapCard h ≠ none := by
  rw [← gateOpen_iff]
  cases h with
  | none => simp [heatmapCard, gateOpen]
  | some hm =>
    cases hp : hm.points with
    | none => simp [heatmapCard, gateOpen, hp]
    | some l => cases l <;> simp [heatmapCard, gateOpen, hp]

theorem clusterCard_some_iff (c : Option Clusters) :
    presentNonEmpty (c.bind fun m => m.zones) ↔ clusterCard c ≠ none := by
  rw [← gateOpen_iff]
  cases c with
  | none => simp [clusterCard, gateOpen]
  | some cl =>
    cases hp : cl.zones with
    | none => simp [clusterCard, gateOpen, hp]
    | some l => cases l <;> simp [clusterCard, gateOpen, hp]

/-- C6: in a state that renders the full dashboard (loading false, error falsy)
each gated panel is a function of its own slot alone and shows a plot exactly
when its own sequence is present and non-empty: `demandPred.labels` for the
demand chart, `durationPred.labels` for the fare chart, `heatmap.points` for the
heatmap and `clusters.zones` for the cluster map.  With the gate closed the
demand card shows `Need 7+ days of data`, the fare card shows
`Need 50+ valid trips (distance > 0, fare ≥ 0)` and a map card is omitted. -/
theorem threshold_gate (s : State) (hl : s.loading = false) (he : truthy s.error = false) :
    ∃ v, render s = .dashboard v
      ∧ v.demand = demandPanel s.demandPred ∧ v.fare = farePanel s.durationPred
      ∧ v.heatmap = heatmapCard s.heatmap ∧ v.clusterMap = clusterCard s.clusters
      ∧ (presentNonEmpty (s.demandPred.bind fun p => p.labels) ↔ ∃ p, v.demand = .plot p)
      ∧ (¬ presentNonEmpty (s.demandPred.bind fun p => p.labels) →
          v.demand = .empty "Need 7+ days of data")
      ∧ (presentNonEmpty (s.durationPred.bind fun p => p.labels) ↔ ∃ p, v.fare = .plot p)
      ∧ (¬ presentNonEmpty (s.durationPred.bind fun p => p.labels) →
          v.fare = .empty "Need 50+ valid trips (distance > 0, fare ≥ 0)")
      ∧ (presentNonEmpty (s.heatmap.bind fun m => m.points) ↔ v.heatmap ≠ none)
      ∧ (presentNonEmpty (s.clusters.bind fun m => m.zones) ↔ v.clusterMap ≠ none) :=
  ⟨dashboardView s, render_dashboard s hl he, rfl, rfl, rfl, rfl,
    demandPanel_plot_iff _, demandPanel_closed _, farePanel_plot_iff _, farePanel_closed _,
    heatmapCard_some_iff _, clusterCard_some_iff _⟩

/-- Witness of `threshold_gate`: a bundle with `heatmap.points = []`, empty
demand labels and one cluster zone; the heatmap card is omitted, the cluster card
is there and the demand card shows its placeholder. -/
theorem threshold_gate_witness :
    readyEmptyHeatmap.loading = false ∧ truthy readyEmptyHeatmap.error = false
    ∧ ∃ v, render readyEmptyHeatmap = .dashboard v
      ∧ v.heatmap = none ∧ v.clusterMap ≠ none
      ∧ v.demand = .empty "Need 7+ days of data" := by
  refine ⟨by decide, by decide, ?_⟩
  obtain ⟨v, hv, hd, _, hh, hc, _, _, _, _, _, _⟩ :=
    threshold_gate readyEmptyHeatmap (by decide) (by decide)
  refine ⟨v, hv, ?_, ?_, ?_⟩
  · rw [hh]; decide
  · rw [hc]; decide
  · rw [hd]; decide

/-! ## C7: marker sizes -/

/-- C7: for every weight `w` the heatmap marker size is `min(22, 5 + w/200)` and
the cluster-map marker size is `min(18, 5 + w/500)`, and these are the sizes
the two map traces carry; the clamp is a no-op exactly when `w ≤ 3400`, resp.
`w ≤ 6500`, and the size is the cap, 22 resp. 18, for every larger `w`. -/
theorem marker_sizing (w : ℚ) :
    heatmapMarkerSize w = min 22 (5 + w / 200)
    ∧ clusterMarkerSize w = min 18 (5 + w / 500)
    ∧ (heatmapMarkerSize w = 5 + w / 200 ↔ w ≤ 3400)
    ∧ (clusterMarkerSize w = 5 + w / 500 ↔ w ≤ 6500)
    ∧ heatmapMarkerSize w = (if w ≤ 3400 then 5 + w / 200 else 22)
    ∧ clusterMarkerSize w = (if w ≤ 6500 then 5 + w / 500 else 18)
    ∧ (∀ points : List HeatPoint,
        (heatmapPlot points).size = points.map fun p => min 22 (5 + (p.count : ℚ) / 200))
    ∧ (∀ zones : List ClusterZone,
        (clusterPlot zones).size = zones.map fun z => min 18 (5 + (z.count : ℚ) / 500)) := by
  have h1 : 5 + w / 200 ≤ 22 ↔ w ≤ 3400 := by
    constructor <;> intro h <;> linarith
  have h2 : 5 + w / 500 ≤ 18 ↔ w ≤ 6500 := by
    constructor <;> intro h <;> linarith
  refine ⟨rfl, rfl, ?_, ?_, ?_, ?_, fun _ => rfl, fun _ => rfl⟩
  · unfold heatmapMarkerSize
    rw [min_eq_right_iff, h1]
  · unfold clusterMarkerSize
    rw [min_eq_right_iff, h2]
  · unfold heatmapMarkerSize
    by_cases h : w ≤ 3400
    · rw [if_pos h, min_eq_right (h1.mpr h)]
    · rw [if_neg h, min_eq_left]
      have : 3400 < w := lt_of_not_le h
      linarith
  · unfold clusterMarkerSize
    by_cases h : w ≤ 6500
    · rw [if_pos h, min_eq_right (h2.mpr h)]
    · rw [if_neg h, min_eq_left]
      have : 6500 < w := lt_of_not_le h
      linarith

/-! ## C8: the label round trip -/

theorem xIndices_eq_range (labels : List String) :
    xIndices labels = List.range labels.length := by
  apply List.ext_getElem
  · simp [xIndices]
  · intro n h1 h2
    simp [xIndices]

/-- C8: for a non-empty label sequence the plots carry the labels in order and
unchanged.  The fare chart has `ticktext` the labels, `tickvals` and the trace `x`
both `[0, ..., n-1]` for `n` labels, and `y` the `actual` values; the demand chart
has the traces `Actual` and `Predicted`, both with the labels as `x`, and with
`actual` and `predicted` as `y`. -/
theorem label_round_trip (labels : List String) (hne : labels ≠ []) :
    (∀ dp : DurationPred, dp.labels = some labels →
      farePanel (some dp) = .plot { x := List.range labels.length, y := dp.actual,
                                    tickvals := List.range labels.length,
                                    ticktext := labels })
    ∧ (∀ dp : DemandPred, dp.labels = some labels →
      demandPanel (some dp) = .plot [ { name := "Actual", x := labels, y := dp.actual },
                                      { name := "Predicted", x := labels,
                                        y := dp.predicted } ]) := by
  have hg : gateOpen (some labels) = true := (gateOpen_iff _).mpr ⟨labels, rfl, hne⟩
  constructor
  · intro dp h
    simp only [farePanel, h, hg, if_true, farePlot, xIndices_eq_range]
  · intro dp h
    simp only [demandPanel, h, hg, if_true, demandTraces]

/-- Witness of `label_round_trip`: three distance labels. -/
theorem label_round_trip_witness :
    ["0.5", "1.2", "3.0"] ≠ ([] : List String)
    ∧ farePanel (some { labels := some ["0.5", "1.2", "3.0"], actual := some [4, 7, 12] })
        = .plot { x := [0, 1, 2], y := some [4, 7, 12], tickvals := [0, 1, 2],
                  ticktext := ["0.5", "1.2", "3.0"] } :=
  ⟨by decide,
    (label_round_trip ["0.5", "1.2", "3.0"] (by decide)).1
      { labels := some ["0.5", "1.2", "3.0"], actual := some [4, 7, 12] } rfl⟩

/-! ## C9: noise points -/

theorem clusterColor_numbered (z : ClusterZone) (c : Int) (hc : z.cluster = .val c)
    (h0 : 0 ≤ c) : clusterColor z = .val c := by
  simp [clusterColor, geZero, hc, h0]

theorem clusterColor_negative_or_missing (z : ClusterZone)
    (h : z.cluster = .undefined ∨ ∃ c, z.cluster = .val c ∧ c < 0) :
    clusterColor z = .val (-1) := by
  rcases h with h | ⟨c, hc, hneg⟩
  · simp [clusterColor, geZero, h]
  · have : ¬ 0 ≤ c := by omega
    simp [clusterColor, geZero, hc, this]

/-- The noise rule where the code keeps it: for a zone whose cluster id is an
integer or is missing, the colour value is the id when it is not negative and -1
otherwise, the hover text ends in ` · Cluster <id>`, resp. ` · Noise`, and the
colour of such a noise point is strictly below that of every numbered cluster. -/
theorem noise_rule_for_integer_or_missing_id (z : ClusterZone) :
    (∀ c, z.cluster = .val c → 0 ≤ c →
        clusterColor z = .val c
        ∧ clusterText z = showString z.zone ++ " (" ++ toString z.count ++ " trips)"
            ++ (" · Cluster " ++ toString c))
    ∧ ((z.cluster = .undefined ∨ ∃ c, z.cluster = .val c ∧ c < 0) →
        clusterColor z = .val (-1)
        ∧ clusterText z = showString z.zone ++ " (" ++ toString z.count ++ " trips)"
            ++ " · Noise")
    ∧ (∀ (z2 : ClusterZone) (c2 : Int),
        (z.cluster = .undefined ∨ ∃ c, z.cluster = .val c ∧ c < 0) →
        z2.cluster = .val c2 → 0 ≤ c2 →
        ∃ a b : Int, clusterColor z = .val a ∧ clusterColor z2 = .val b ∧ a < b)
    ∧ (∀ zones : List ClusterZone,
        (clusterPlot zones).color = zones.map clusterColor
        ∧ (clusterPlot zones).text = zones.map clusterText) := by
  refine ⟨?_, ?_, ?_, fun _ => ⟨rfl, rfl⟩⟩
  · intro c hc h0
    refine ⟨clusterColor_numbered z c hc h0, ?_⟩
    simp [clusterText, clusterSuffix, geZero, showInt, hc, h0]
  · intro h
    refine ⟨clusterColor_negative_or_missing z h, ?_⟩
    rcases h with h | ⟨c, hc, hneg⟩
    · simp [clusterText, clusterSuffix, geZero, h]
    · have : ¬ 0 ≤ c := by omega
      simp [clusterText, clusterSuffix, geZero, hc, this]
  · intro z2 c2 h hc2 h0
    refine ⟨-1, c2, clusterColor_negative_or_missing z h,
      clusterColor_numbered z2 c2 hc2 h0, ?_⟩
    omega

/-- C9, at the failing input: a zone whose cluster id is `null` has no id and is a
noise point, yet `null >= 0` holds in JavaScript, so the colour value sent to the
cluster map is `null`, not -1, and the hover text ends in ` · Cluster null`, not
in ` · Noise`.  A zone without a `cluster` key and a zone with id -1 get -1 and
` · Noise`; a `null` zone name is printed as `null`. -/
theorem null_cluster_id_evaluation :
    noisePoint nullIdZone
    ∧ clusterColor nullIdZone = .null
    ∧ clusterColor nullIdZone ≠ .val (-1)
    ∧ clusterText nullIdZone = "SoHo (40 trips) · Cluster null"
    ∧ (clusterPlot [nullIdZone]).color = [.null]
    ∧ clusterColor { nullIdZone with cluster := .undefined } = .val (-1)
    ∧ clusterText { nullIdZone with cluster := .undefined } = "SoHo (40 trips) · Noise"
    ∧ clusterColor { nullIdZone with cluster := .val (-1) } = .val (-1)
    ∧ clusterText { nullIdZone with cluster := .val (-1) } = "SoHo (40 trips) · Noise"
    ∧ clusterText { nullIdZone with zone := .null, cluster := .val 3 }
        = "null (40 trips) · Cluster 3" := by
  refine ⟨Or.inr (Or.inl rfl), ?_, ?_, ?_, ?_, ?_, ?_, ?_, ?_, ?_⟩ <;> decide

/-! ## C10: the request URL -/

/-- C10: `withCabType path cabType` is `path` when `cabType` is absent, empty or
`all`; otherwise it is `path`, then `&` if `path` contains `?` and `?` if it does
not, then `cab_type=` and the cab type.  So `fetchDashboardAll` requests
`/api/dashboard/` when the cab type is omitted or `all`, and
`/api/dashboard/?cab_type=yellow`, resp. `green`, for yellow, resp. green. -/
theorem request_url (path : String) (cabType : Option String) :
    (cabType = none ∨ cabType = some "" ∨ cabType = some "all" →
        withCabType path cabType = path)
    ∧ (∀ c, cabType = some c → c ≠ "" → c ≠ "all" →
        withCabType path cabType
          = path ++ (if '?' ∈ path.data then "&" else "?") ++ "cab_type=" ++ c)
    ∧ dashboardUrl none = "/api/dashboard/"
    ∧ dashboardUrl (some "all") = "/api/dashboard/"
    ∧ dashboardUrl (some "yellow") = "/api/dashboard/?cab_type=yellow"
    ∧ dashboardUrl (some "green") = "/api/dashboard/?cab_type=green" := by
  refine ⟨?_, ?_, by decide, by decide, by decide, by decide⟩
  · rintro (h | h | h) <;> subst h <;> simp [withCabType, truthy]
  · intro c hc h1 h2
    subst hc
    simp [withCabType, truthy, h1, h2, includesQuestionMark]

/-- Witness of `request_url`: a path that already has a query string. -/
theorem request_url_witness :
    withCabType "/api/metrics/?limit=5" (some "green") = "/api/metrics/?limit=5&cab_type=green"
    ∧ withCabType "/api/metrics/" (some "") = "/api/metrics/" :=
  ⟨((request_url "/api/metrics/?limit=5" (some "green")).2.1 "green" rfl
      (by decide) (by decide)).trans (by decide),
    (request_url "/api/metrics/" (some "")).1 (Or.inr (Or.inl rfl))⟩

/-! ## C11: one request at a time -/

theorem render_loading_iff (s : State) : render s = .loading ↔ s.loading = true := by
  unfold render
  cases hl : s.loading with
  | true => simp
  | false =>
    cases he : s.error with
    | none => simp
    | some m => by_cases ht : truthy (some m) = true <;> simp [ht]

theorem buttonsShown_loading (p : Page) (hu : UpToDate p) (h : buttonsShown p = true) :
    p.state.loading = false := by
  cases hl : p.state.loading with
  | false => rfl
  | true =>
    have : p.shown = .loading := hu.trans ((render_loading_iff _).mpr hl)
    simp [buttonsShown, this] at h

theorem singleFlight_mount : SingleFlight mount := by
  constructor
  · decide
  · decide

theorem singleFlight_loadData (s : State) (h : s.inflight = []) :
    SingleFlight (loadData s) := by
  constructor
  · simp [loadData, h]
  · simp [loadData, h]

theorem singleFlight_resolve (id : Nat) (o : Except String Payload) (s s1 : State)
    (hs : SingleFlight s) (h : resolve id o s = some s1) : SingleFlight s1 := by
  unfold resolve at h
  split at h
  · rename_i hany
    injection h with h
    subst h
    have hnil : (s.inflight.filter fun r => r.id != id) = [] := by
      match hl : s.inflight with
      | [] => rfl
      | [r] =>
        rw [hl] at hany
        have : r.id = id := by simpa using hany
        simp [this]
      | _ :: _ :: _ =>
        have := hs.1
        rw [hl] at this
        simp at this
    constructor
    · rw [settle_inflight]
      simp [hnil]
    · rw [settle_loading, settle_inflight]
      simp [hnil]
  · exact absurd h (by simp)

theorem inflight_nil_of_buttonsShown (p : Page) (hs : SingleFlight p.state)
    (hu : UpToDate p) (h : buttonsShown p = true) : p.state.inflight = [] := by
  by_contra hne
  have := hs.2.mpr hne
  rw [buttonsShown_loading p hu h] at this
  exact absurd this (by decide)

theorem singleFlight_clickFilter (b : FilterButton) (p p1 : Page)
    (hs : SingleFlight p.state) (hu : UpToDate p)
    (h : step (.clickFilter b) p = some p1) : SingleFlight p1.state := by
  simp only [step] at h
  split at h
  · rename_i hd
    have hnil := inflight_nil_of_buttonsShown p hs hu hd
    split at h
    · injection h with h
      subst h
      exact hs
    · rename_i hne
      injection h with h
      subst h
      show SingleFlight (setFilter b.value p.state)
      rw [setFilter, if_neg hne]
      exact singleFlight_loadData _ hnil
  · exact absurd h (by simp)

theorem singleFlight_clickRefresh (p p1 : Page) (hs : SingleFlight p.state)
    (hu : UpToDate p) (h : step .clickRefresh p = some p1) : SingleFlight p1.state := by
  simp only [step] at h
  split at h
  · rename_i hd
    have hnil := inflight_nil_of_buttonsShown p hs hu hd
    injection h with h
    subst h
    exact singleFlight_loadData _ hnil
  · exact absurd h (by simp)

theorem step_resolution (id : Nat) (o : Except String Payload) (p p1 : Page)
    (h : step (.resolution id o) p = some p1) :
    resolve id o p.state = some p1.state ∧ UpToDate p1 := by
  simp only [step] at h
  cases hr : resolve id o p.state with
  | none => rw [hr] at h; exact absurd h (by simp)
  | some s =>
    rw [hr] at h
    injection h with h
    subst h
    exact ⟨rfl, rfl⟩

theorem run_promptly_invariant (es : List Event) (p p1 : Page)
    (hs : SingleFlight p.state) (hu : UpToDate p)
    (h : run (promptly es) p = some p1) : SingleFlight p1.state ∧ UpToDate p1 := by
  induction es generalizing p with
  | nil =>
    simp only [promptly, run] at h
    injection h with h
    subst h
    exact ⟨hs, hu⟩
  | cons e es ih =>
    cases e with
    | clickFilter b =>
      simp only [promptly, run] at h
      cases h1 : step (.clickFilter b) p with
      | none => rw [h1] at h; exact absurd h (by simp)
      | some q =>
        rw [h1] at h
        have hq := singleFlight_clickFilter b p q hs hu h1
        exact ih { q with shown := render q.state } hq rfl h
    | clickRefresh =>
      simp only [promptly, run] at h
      cases h1 : step .clickRefresh p with
      | none => rw [h1] at h; exact absurd h (by simp)
      | some q =>
        rw [h1] at h
        have hq := singleFlight_clickRefresh p q hs hu h1
        exact ih { q with shown := render q.state } hq rfl h
    | rerender =>
      simp only [promptly, run] at h
      exact ih { p with shown := render p.state } hs rfl h
    | resolution id o =>
      simp only [promptly, run] at h
      cases h1 : step (.resolution id o) p with
      | none => rw [h1] at h; exact absurd h (by simp)
      | some q =>
        rw [h1] at h
        obtain ⟨hr, hq⟩ := step_resolution id o p q h1
        exact ih q (singleFlight_resolve id o p.state q.state hs hr) hq h

/-- C11, refuted as stated: on a loaded dashboard the green and the yellow button
are clicked one after the other, the second click landing while the page still
shows the dashboard that the first click committed.  Both clicks are accepted
and two requests are in flight.  When green's request then fails, the page shows
the error panel with loading false while yellow's request is still in flight,
and its resolution is a step from the error panel. -/
theorem double_click_counterexample :
    (run [.resolution 0 (.ok yellowPayload), .clickFilter .green] mountPage).map
        (fun p => (buttonsShown p, p.state.inflight.length)) = some (true, 1)
    ∧ (run doubleClick mountPage).map (fun p => p.state.inflight.length) = some 2
    ∧ (run (doubleClick ++ [.resolution 1 (.error "Failed to fetch dashboard")])
          mountPage).map (fun p => (p.shown, p.state.loading, p.state.inflight.length))
        = some (.errorPanel "Failed to fetch dashboard"
                  "Upload some data first from the Upload page.", false, 1)
    ∧ ((run (doubleClick ++ [.resolution 1 (.error "Failed to fetch dashboard")])
          mountPage).bind (step (.resolution 2 (.ok yellowPayload)))).isSome = true := by
  decide

/-- C11, amended: in the step relation of the rendered page, on every run in
which the re-render that follows a click is committed before the next event,
the page reached has at most one request in flight, has loading true exactly
while a request is in flight, and shows the view of its state.  From its loading
view every possible step is a resolution, and one is possible, or the re-render
that changes nothing; from its error panel no step is possible but that
re-render. -/
theorem one_request_at_a_time (es : List Event) (p : Page)
    (hr : run (promptly es) mountPage = some p) :
    p.state.inflight.length ≤ 1
    ∧ (p.state.loading = true ↔ p.state.inflight ≠ [])
    ∧ p.shown = render p.state
    ∧ (p.shown = .loading →
        (∀ e p1, step e p = some p1 → (∃ id o, e = .resolution id o) ∨ (e = .rerender ∧ p1 = p))
        ∧ ∃ id, ∀ o, ∃ p1, step (.resolution id o) p = some p1)
    ∧ (∀ m hint, p.shown = .errorPanel m hint →
        ∀ e p1, step e p = some p1 → e = .rerender ∧ p1 = p) := by
  obtain ⟨hs, hu⟩ := run_promptly_invariant es mountPage p singleFlight_mount rfl hr
  have hre : ∀ p1, step .rerender p = some p1 → p1 = p := by
    intro p1 h
    simp only [step] at h
    injection h with h
    rw [← h, ← hu]
  refine ⟨hs.1, hs.2, hu, ?_, ?_⟩
  · intro hl
    have hd : buttonsShown p = false := by simp [buttonsShown, hl]
    constructor
    · intro e p1 h
      cases e with
      | clickFilter b => simp [step, hd] at h
      | clickRefresh => simp [step, hd] at h
      | rerender => exact Or.inr ⟨rfl, hre p1 h⟩
      | resolution id o => exact Or.inl ⟨id, o, rfl⟩
    · have hne : p.state.inflight ≠ [] :=
        hs.2.mp ((render_loading_iff _).mp (hu.symm.trans hl))
      match hl2 : p.state.inflight with
      | [] => exact absurd hl2 hne
      | r :: t =>
        have hin : p.state.inFlight r.id = true := by simp [State.inFlight, hl2]
        refine ⟨r.id, fun o =>
          ⟨{ state := settle o { p.state with
                                 inflight := p.state.inflight.filter fun q => q.id != r.id },
             shown := render (settle o { p.state with
                                 inflight := p.state.inflight.filter fun q => q.id != r.id }) },
            ?_⟩⟩
        simp only [step, resolve_of_inFlight r.id o p.state hin]
  · intro m hint he e p1 h
    have hd : buttonsShown p = false := by simp [buttonsShown, he]
    have hlf : p.state.loading = false := by
      cases hl : p.state.loading with
      | false => rfl
      | true =>
        have := hu.trans ((render_loading_iff _).mpr hl)
        rw [he] at this
        exact View.noConfusion this
    have hnil : p.state.inflight = [] := by
      by_contra hne
      have := hs.2.mpr hne
      rw [hlf] at this
      exact absurd this (by decide)
    cases e with
    | clickFilter b => simp [step, hd] at h
    | clickRefresh => simp [step, hd] at h
    | rerender => exact ⟨rfl, hre p1 h⟩
    | resolution id o =>
      have hnone : resolve id o p.state = none := by
        apply resolve_of_not_inFlight
        simp [State.inFlight, hnil]
      simp [step, hnone] at h

/-- Witness of `one_request_at_a_time`: the page at the end of `sampleRun`, with
the re-render committed after the click, shows the error panel and no request is
in flight. -/
theorem one_request_at_a_time_witness :
    run (promptly sampleRun) mountPage = some afterSampleRun
    ∧ afterSampleRun.shown
        = .errorPanel "Failed to fetch dashboard" "Upload some data first from the Upload page."
    ∧ afterSampleRun.state.inflight.length ≤ 1
    ∧ (afterSampleRun.state.loading = true ↔ afterSampleRun.state.inflight ≠ [])
    ∧ ∀ e p1, step e afterSampleRun = some p1 → e = .rerender ∧ p1 = afterSampleRun :=
  have hr : run (promptly sampleRun) mountPage = some afterSampleRun := by decide
  have h := one_request_at_a_time sampleRun afterSampleRun hr
  ⟨hr, by decide, h.1, h.2.1,
    h.2.2.2.2 "Failed to fetch dashboard" "Upload some data first from the Upload page."
      (by decide)⟩

end NycTaxi
